import Mathlib

/-!
Shallow embedding of src/djvusep_taylor.py (DjVusep Tailor).

The program converts a directory of page images into one DjVu document:
it lists the input directory, runs process_image on every entry of the
sorted listing through a thread pool, collects (filename, page-path)
results as futures complete, sorts the collected pages by the index of
their filename in the sorted listing, and finally combines the per-page
artifacts with the external djvm tool.

External behaviour (what each spawned process does, whether the two
layer files exist, what PIL.Image.open reports) is supplied through an
explicit environment, so every definition is an executable function of
that environment.  Byte streams are lists of naturals; decoded text is
String.
-/

/-- Byte sequences (Python bytes objects) are modelled as lists of naturals. -/
abbrev ByteSeq := List Nat

/-- Outcome of spawning one external process: either subprocess.Popen raises
(program missing, permission denied), or the process runs to completion with
an exit status, captured stdout bytes and decoded stderr text. -/
inductive CmdOutcome where
  | launchFailure (msg : String)
  | exited (returncode : Int) (stdout : ByteSeq) (stderr : String)
deriving DecidableEq

/-- The CommandError exception of the source (message plus stderr attribute). -/
structure CommandError where
  message : String
  stderr : String
deriving DecidableEq

/-- Exceptions that can be raised inside the body of run_command before its
blanket except-clause: the CommandError it raises itself on a non-zero exit,
the IndexError raised by str.format when a placeholder has no argument, and
the OSError raised by subprocess.Popen when the program cannot be launched. -/
inductive PyExc where
  | commandError (message stderr : String)
  | indexError (msg : String)
  | osError (msg : String)
deriving DecidableEq

/-- Python str(e) for the exceptions above: the message text. -/
def PyExc.str : PyExc → String
  | .commandError m _ => m
  | .indexError m => m
  | .osError m => m

/-- Core of Python str.format with automatic field numbering: each empty
placeholder consumes the next positional argument; when the arguments run
out, CPython raises IndexError with the message produced below.  The third
argument counts the placeholders already consumed. -/
def pyFormatCore : List Char → List String → Nat → Except String (List Char)
  | [], _, _ => .ok []
  | '\x7b' :: '\x7d' :: rest, args, k =>
    match args with
    | [] => .error ("Replacement index " ++ toString k ++ " out of range")
    | a :: as => (pyFormatCore rest as (k + 1)).map (fun t => a.toList ++ t)
  | c :: rest, args, k => (pyFormatCore rest args k).map (fun t => c :: t)

/-- Python template.format(args...), restricted to the empty-brace
placeholders the source uses. -/
def pyFormat (template : String) (args : List String) : Except String String :=
  (pyFormatCore template.toList args 0).map String.mk

/-- Python str applied to a list of strings, as in str(command). -/
def pyStrList (xs : List String) : String :=
  "[" ++ String.intercalate ", " (xs.map (fun s => "\x27" ++ s ++ "\x27")) ++ "]"

/-- Body of run_command (the code inside its try-block), lines 63-77 of the
source.  On a non-zero exit the source evaluates
"Command \x7b\x7d failed with return code \x7b\x7d: \x7b\x7d".format(command, returncode)
— three placeholders, two arguments — so str.format raises IndexError before
the CommandError of line 76 can be constructed. -/
def run_command_body (command : List String) (outcome : CmdOutcome) :
    Except PyExc (ByteSeq × String) :=
  match outcome with
  | .launchFailure msg => .error (.osError msg)
  | .exited returncode stdout stderr =>
    if returncode ≠ 0 then
      match pyFormat "Command \x7b\x7d failed with return code \x7b\x7d: \x7b\x7d"
          [pyStrList command, toString returncode] with
      | .error m => .error (.indexError m)
      | .ok message => .error (.commandError message stderr)
    else .ok (stdout, stderr)

/-- run_command, lines 47-79 of the source: any exception raised in the body
— including the CommandError the body itself raises — is caught by the
except-clause of line 78 and re-raised as
CommandError("Error running command \x7b\x7d: \x7b\x7d".format(command, str(e)), "")
whose stderr attribute is always the empty string.  (That outer format has
two placeholders and two arguments, so it always succeeds.)  The input_data
argument is written to the pipe of the child process; the child's behaviour
is supplied by outcome. -/
def run_command (command : List String) (input_data : Option ByteSeq)
    (outcome : CmdOutcome) : Except CommandError (ByteSeq × String) :=
  match run_command_body command outcome with
  | .ok v => .ok v
  | .error e =>
    .error ⟨(pyFormat "Error running command \x7b\x7d: \x7b\x7d"
              [pyStrList command, e.str]).toOption.getD "", ""⟩

/-- Python s.endswith(suffix). -/
def pyEndswith (s suffix : String) : Bool :=
  suffix.toList.isSuffixOf s.toList

/-- Index of the last dot in a character list (str.rfind for the dot). -/
def rfindDot : List Char → Option Nat
  | [] => none
  | c :: rest =>
    match rfindDot rest with
    | some k => some (k + 1)
    | none => if c = '.' then some (0 : Nat) else none

/-- Root part of os.path.splitext for a bare filename (directory entries
contain no path separator): split at the last dot, unless every character
before that dot is itself a dot, in which case the name has no extension
(CPython treats leading dots as part of the stem, so splitext of the name
consisting of only ".tif" returns the whole name as the root). -/
def splitextRoot (p : String) : String :=
  match rfindDot p.toList with
  | none => p
  | some k =>
    if (p.toList.take k).all (fun c => c = '.') then p
    else String.mk (p.toList.take k)

/-- os.path.join for the relative components the source joins. -/
def osJoin (a b : String) : String := a ++ "/" ++ b

/-- Configuration values that the CLI layer passes into the core. -/
structure Config where
  inputdir : String
  outputfile : String
  resolution : Int
  cr_cjb2 : Int
  cr_c44 : String
  temp_dir : String

/-- background_dir of line 96. -/
def background_dir (cfg : Config) : String := osJoin cfg.inputdir "background"

/-- foreground_dir of line 97. -/
def foreground_dir (cfg : Config) : String := osJoin cfg.inputdir "foreground"

/-- Per-candidate external world: whether the two layer files exist, what
PIL.Image.open yields for the top-level file (an exception message, or the
decoded mode string such as "1", "RGB", "L", "P", "CMYK"), the name chosen
for the NamedTemporaryFile of the photo branch, and the outcome of each
external process the branches may spawn. -/
structure PageEnv where
  bg_exists : Bool
  fg_exists : Bool
  img : Except String String
  temp_name : String
  tifftopnm_bg : CmdOutcome
  tifftopnm_fg : CmdOutcome
  pbmtodjvurle : CmdOutcome
  csepdjvu : CmdOutcome
  cjb2 : CmdOutcome
  tifftopnm_single : CmdOutcome
  c44 : CmdOutcome

/-- Exceptions escaping one unit of work: a CommandError from run_command,
or the exception PIL.Image.open raises on undecodable content, which
process_image does not catch. -/
inductive PyError where
  | cmd (e : CommandError)
  | image (msg : String)
deriving DecidableEq

deriving instance DecidableEq for Except

/-- One recorded external invocation: argument vector and the bytes fed to
standard input. -/
abbrev Invocation := List String × Option ByteSeq

/-- Observable behaviour of one process_image call: the value returned or
exception raised, the external commands spawned in order, and whether the
photo branch created and (via the with-statement) deleted its temporary
file. -/
structure PageResult where
  result : Except PyError (Option (String × String))
  trace : List Invocation
  tempCreated : Bool
  tempDeleted : Bool
deriving DecidableEq

/-- process_image, lines 113-171 of the source.  Python semantics made
explicit: a with-statement runs its suite and unconditionally runs the
resource's exit handler afterwards, so NamedTemporaryFile deletes its file
on every exit path, including an exception escaping the suite; a function
falling off the end of its body returns None. -/
def process_image (cfg : Config) (env : PageEnv) (filename : String) : PageResult :=
  if pyEndswith filename ".tif" then
    let file_path := osJoin cfg.inputdir filename
    let page_name := splitextRoot filename
    let background_path := osJoin (background_dir cfg) (page_name ++ ".tif")
    let foreground_path := osJoin (foreground_dir cfg) (page_name ++ ".tif")
    let output_path := osJoin cfg.temp_dir (page_name ++ ".djvu")
    if env.bg_exists && env.fg_exists then
      let c1 : List String := ["tifftopnm", background_path]
      match run_command c1 none env.tifftopnm_bg with
      | .error e => ⟨.error (.cmd e), [(c1, none)], false, false⟩
      | .ok (background_pam_data, _) =>
        let c2 : List String := ["tifftopnm", foreground_path]
        match run_command c2 none env.tifftopnm_fg with
        | .error e => ⟨.error (.cmd e), [(c1, none), (c2, none)], false, false⟩
        | .ok (foreground_pbm_data, _) =>
          let c3 : List String := ["pbmtodjvurle"]
          match run_command c3 (some foreground_pbm_data) env.pbmtodjvurle with
          | .error e =>
            ⟨.error (.cmd e), [(c1, none), (c2, none), (c3, some foreground_pbm_data)],
              false, false⟩
          | .ok (foreground_rle_data, _) =>
            let combined_data := foreground_rle_data ++ background_pam_data
            let c4 : List String :=
              ["csepdjvu", "-d", toString cfg.resolution, "-q", cfg.cr_c44, "-", output_path]
            match run_command c4 (some combined_data) env.csepdjvu with
            | .error e =>
              ⟨.error (.cmd e),
                [(c1, none), (c2, none), (c3, some foreground_pbm_data),
                 (c4, some combined_data)], false, false⟩
            | .ok _ =>
              ⟨.ok (some (filename, output_path)),
                [(c1, none), (c2, none), (c3, some foreground_pbm_data),
                 (c4, some combined_data)], false, false⟩
    else
      match env.img with
      | .error m => ⟨.error (.image m), [], false, false⟩
      | .ok mode =>
        if mode = "1" then
          let c : List String :=
            ["cjb2", "-dpi", toString cfg.resolution, "-losslevel", toString cfg.cr_cjb2,
             file_path, output_path]
          match run_command c none env.cjb2 with
          | .error e => ⟨.error (.cmd e), [(c, none)], false, false⟩
          | .ok _ => ⟨.ok (some (filename, output_path)), [(c, none)], false, false⟩
        else if mode = "RGB" || mode = "L" then
          let c1 : List String := ["tifftopnm", file_path]
          match run_command c1 none env.tifftopnm_single with
          | .error e => ⟨.error (.cmd e), [(c1, none)], true, true⟩
          | .ok _ =>
            let c2 : List String :=
              ["c44", "-dpi", toString cfg.resolution, "-slice", cfg.cr_c44,
               env.temp_name, output_path]
            match run_command c2 none env.c44 with
            | .error e => ⟨.error (.cmd e), [(c1, none), (c2, none)], true, true⟩
            | .ok _ => ⟨.ok (some (filename, output_path)), [(c1, none), (c2, none)], true, true⟩
        else ⟨.ok none, [], false, false⟩
  else ⟨.ok none, [], false, false⟩

/-- Python string comparison a < b: lexicographic by code point. -/
def pyStrLt : List Char → List Char → Bool
  | [], [] => false
  | [], _ :: _ => true
  | _ :: _, [] => false
  | a :: as, b :: bs =>
    if a.toNat < b.toNat then true
    else if b.toNat < a.toNat then false
    else pyStrLt as bs

/-- Python string comparison a <= b. -/
def pyStrLe (a b : String) : Bool := ! pyStrLt b.toList a.toList

/-- Python sorted() on a list of strings: a stable sort under the
lexicographic code-point order (insertion sort is stable, and keys in the
source are compared with a total order, so it computes the same list). -/
def pySorted (names : List String) : List String :=
  List.insertionSort (fun a b => pyStrLe a b = true) names

/-- The value stored in one future: what process_image returned, or the
exception it raised, which future.result() re-raises. -/
abbrev FutureVal := Except PyError (Option (String × String))

/-- The futures of line 175, in submission order: one per filename of the
sorted directory listing; the external world of the page at submission
index i is envs i. -/
def futureValues (cfg : Config) (envs : Nat → PageEnv) (sortedNames : List String) :
    List FutureVal :=
  (List.range sortedNames.length).map fun i =>
    (process_image cfg (envs i) (sortedNames.getD i "")).result

/-- The sequence of future values in the order concurrent.futures.as_completed
yields them: order lists submission indices in completion order. -/
def completionResults (cfg : Config) (envs : Nat → PageEnv) (sortedNames : List String)
    (order : List Nat) : List FutureVal :=
  order.map fun i => (futureValues cfg envs sortedNames).getD i (.ok none)

/-- The collection loop of lines 183-187: walk the completed futures; a
future holding an exception re-raises it at future.result(), aborting the
loop; a None result is skipped; otherwise the pair is appended when the
page path is truthy.  Returns the pages appended before the first raised
exception, and that exception if one occurred. -/
def collectLoop : List FutureVal → List (String × String) × Option PyError
  | [] => ([], none)
  | .error e :: _ => ([], some e)
  | .ok none :: rest => collectLoop rest
  | .ok (some (filename, page)) :: rest =>
    (if page ≠ "" then (filename, page) :: (collectLoop rest).1 else (collectLoop rest).1,
     (collectLoop rest).2)

/-- The page a future value contributes to the collected list, if any. -/
def pageOf : FutureVal → Option (String × String)
  | .ok (some (filename, page)) => if page ≠ "" then some (filename, page) else none
  | _ => none

/-- Everything observable about one run of main past the CLI layer:
the exception that aborted collection (if any), the pages collected before
that, the ordered artifact paths handed to djvm, the outcome of the djvm
invocation if it happened, whether a pre-existing output file was removed,
and whether the run ended with the "No pages found" report. -/
structure RunTrace where
  collectError : Option PyError
  collectedPages : List (String × String)
  assembledPaths : List String
  djvmInvoked : Bool
  djvmResult : Option (Except CommandError (ByteSeq × String))
  removedOldOutput : Bool
  noPagesReported : Bool
deriving DecidableEq

/-- main, lines 91-204, past the excluded CLI concerns (argument parsing,
the confirmation prompt of line 103 — assumed confirmed — temporary
directory creation, logging, the progress bar).  names is the raw
os.listdir(inputdir) listing, order the completion order of the futures,
outputExists whether a file already sits at the output path, djvmOutcome
what the djvm process does when spawned.  Both line 175 and the sort key of
line 190 evaluate sorted(os.listdir(inputdir)); the directory is unchanged
during the run, so both see the same sorted listing. -/
def mainRun (cfg : Config) (envs : Nat → PageEnv) (names : List String)
    (order : List Nat) (outputExists : Bool) (djvmOutcome : CmdOutcome) : RunTrace :=
  let sortedNames := pySorted names
  let results := completionResults cfg envs sortedNames order
  let collected := collectLoop results
  match collected.2 with
  | some e => ⟨some e, collected.1, [], false, none, false, false⟩
  | none =>
    let sortedPages := List.insertionSort
      (fun a b => List.indexOf a.1 sortedNames ≤ List.indexOf b.1 sortedNames) collected.1
    let pages := sortedPages.map Prod.snd
    if pages ≠ [] then
      let r := run_command (["djvm", "-c", cfg.outputfile] ++ pages) none djvmOutcome
      ⟨none, collected.1, pages, true, some r, outputExists, false⟩
    else
      ⟨none, collected.1, [], false, none, false, true⟩

/-- The pages of the successful results taken in the discovery order of the
sorted directory listing: the sequence the spec says the assembled document
must follow. -/
def inOrderPages (cfg : Config) (envs : Nat → PageEnv) (sortedNames : List String) :
    List (String × String) :=
  (futureValues cfg envs sortedNames).filterMap pageOf

/-- The per-page output path derived at line 128 of the source: the
temporary directory joined with the splitext stem of the candidate name
plus the .djvu extension. -/
def output_path (temp_dir filename : String) : String :=
  osJoin temp_dir (splitextRoot filename ++ ".djvu")

/-- An outcome counts as a success when the process ran and exited 0. -/
def CmdOutcome.succeeded : CmdOutcome → Bool
  | .exited rc _ _ => rc == 0
  | .launchFailure _ => false

/-- All external commands a page job might spawn succeed in this
environment. -/
def PageEnv.allSucceed (env : PageEnv) : Bool :=
  env.tifftopnm_bg.succeeded && env.tifftopnm_fg.succeeded && env.pbmtodjvurle.succeeded &&
  env.csepdjvu.succeeded && env.cjb2.succeeded && env.tifftopnm_single.succeeded &&
  env.c44.succeeded

/-- Fixture configuration for concrete witnesses. -/
def cfgW : Config := ⟨"in", "out.djvu", 300, 1, "74,89,99", "tmp"⟩

/-- Fixture environment of a separated page whose commands all succeed. -/
def envSepW : PageEnv :=
  ⟨true, true, .ok "RGB", "t0", .exited 0 [5] "", .exited 0 [6] "", .exited 0 [7] "",
   .exited 0 [] "", .exited 0 [] "", .exited 0 [] "", .exited 0 [] ""⟩

/-- Fixture environment of a bitonal page whose commands all succeed. -/
def envBitW : PageEnv :=
  ⟨false, false, .ok "1", "t0", .exited 0 [] "", .exited 0 [] "", .exited 0 [] "",
   .exited 0 [] "", .exited 0 [] "", .exited 0 [] "", .exited 0 [] ""⟩

/-- Fixture environment of a bitonal page whose cjb2 encoder exits 1. -/
def envBitFailW : PageEnv :=
  ⟨false, false, .ok "1", "t0", .exited 0 [] "", .exited 0 [] "", .exited 0 [] "",
   .exited 0 [] "", .exited 1 [] "cjb2 says no", .exited 0 [] "", .exited 0 [] ""⟩

/-- Fixture environment of an undecodable top-level image. -/
def envBadW : PageEnv :=
  ⟨false, false, .error "bad", "t0", .exited 0 [] "", .exited 0 [] "", .exited 0 [] "",
   .exited 0 [] "", .exited 0 [] "", .exited 0 [] "", .exited 0 [] ""⟩

/-- A successful process_image result returns the candidate filename itself
as its first component. -/
theorem process_image_result_fst {cfg : Config} {env : PageEnv} {filename : String}
    {fp : String × String}
    (h : (process_image cfg env filename).result = .ok (some fp)) : fp.1 = filename := by
  unfold process_image at h
  simp only [] at h
  repeat' split at h
  all_goals (try (exfalso; simp_all; done))
  all_goals (injection h with h2; injection h2 with h3; subst h3; rfl)

/-- A successful process_image result returns the derived output path as its
second component. -/
theorem process_image_result_snd {cfg : Config} {env : PageEnv} {filename : String}
    {fp : String × String}
    (h : (process_image cfg env filename).result = .ok (some fp)) :
    fp.2 = output_path cfg.temp_dir filename := by
  unfold process_image at h
  simp only [] at h
  repeat' split at h
  all_goals (try (exfalso; simp_all; done))
  all_goals (injection h with h2; injection h2 with h3; subst h3; rfl)

/-- Walking futures that hold no exception collects exactly the pages
pageOf extracts, in the order walked. -/
theorem collectLoop_no_error_fst :
    ∀ {rs : List FutureVal}, (collectLoop rs).2 = none →
      (collectLoop rs).1 = rs.filterMap pageOf := by
  intro rs
  induction rs with
  | nil => intro _; rfl
  | cons r rest ih =>
    intro h
    cases r with
    | error e => simp [collectLoop] at h
    | ok v =>
      cases v with
      | none =>
        simp only [collectLoop] at h ⊢
        simp [pageOf, ih h]
      | some fp =>
        obtain ⟨f, p⟩ := fp
        simp only [collectLoop] at h ⊢
        rw [List.filterMap_cons]
        by_cases hp : p = "" <;> simp [pageOf, hp, ih h]

/-- A future value holding None contributes nothing to the collection loop. -/
theorem collectLoop_append_ok_none (pre post : List FutureVal) :
    collectLoop (pre ++ .ok none :: post) = collectLoop (pre ++ post) := by
  induction pre with
  | nil => simp [collectLoop]
  | cons r pre ih =>
    cases r with
    | error e => simp [collectLoop]
    | ok v =>
      cases v with
      | none => simpa [collectLoop] using ih
      | some fp =>
        obtain ⟨f, p⟩ := fp
        simp [collectLoop, ih]

/-- The first exception among the awaited futures aborts the loop: the pages
collected are exactly those of the error-free futures awaited before it, the
exception is the one raised, and everything after it is never consumed. -/
theorem collectLoop_append_error (e : PyError) (pre post : List FutureVal)
    (hpre : ∀ e2, Except.error e2 ∉ pre) :
    collectLoop (pre ++ .error e :: post) = (pre.filterMap pageOf, some e) := by
  induction pre with
  | nil => simp [collectLoop]
  | cons r rest ih =>
    have hr : ∀ e2, Except.error e2 ∉ rest := fun e2 hm =>
      hpre e2 (List.mem_cons_of_mem _ hm)
    cases r with
    | error e2 => exact absurd (List.mem_cons_self _ _) (hpre e2)
    | ok v =>
      cases v with
      | none => simp [collectLoop, pageOf, ih hr]
      | some fp =>
        obtain ⟨f, p⟩ := fp
        have hrw := ih hr
        simp only [List.cons_append, collectLoop, List.filterMap_cons, List.append_eq]
        rw [hrw]
        by_cases hp : p = "" <;> simp [pageOf, hp]

/-- Mapping each index of a list to its entry reproduces the list. -/
theorem map_getD_range {α : Type} (l : List α) (d : α) :
    (List.range l.length).map (fun i => l.getD i d) = l := by
  induction l with
  | nil => rfl
  | cons a t ih =>
    rw [List.length_cons, List.range_succ_eq_map, List.map_cons, List.map_map]
    simp only [List.getD_cons_zero, Function.comp_def, List.getD_cons_succ]
    rw [ih]

/-- A successful outcome is an exit with status 0. -/
theorem outcome_succeeded_eq {o : CmdOutcome} (h : o.succeeded = true) :
    ∃ out err, o = .exited 0 out err := by
  cases o with
  | launchFailure m => simp [CmdOutcome.succeeded] at h
  | exited rc out err =>
    have h0 : rc = 0 := by simpa [CmdOutcome.succeeded] using h
    exact ⟨out, err, by rw [h0]⟩

/-- run_command returns the captured streams on a zero exit status. -/
theorem run_command_exited0 (c : List String) (i : Option ByteSeq) (out : ByteSeq)
    (err : String) : run_command c i (.exited 0 out err) = .ok (out, err) := by
  simp [run_command, run_command_body]

/-- C3: evaluating run_command at a failing invocation.  The process runs
["false"], exits with status 1 and stderr text "boom", yet the CommandError
the caller receives carries an empty stderr attribute and a message with
neither the exit status nor the stderr text: the three-placeholder format
string of line 76 receives only two arguments, so str.format raises
IndexError before the intended CommandError is built, and the blanket
except of line 78 re-wraps every failure with empty stderr.  Second
conjunct: a launch failure also yields empty stderr (as the claim says).
Third conjunct: a zero exit succeeds with the captured streams. -/
theorem C3_run_command_failure_drops_status_and_stderr :
    run_command ["false"] none (.exited 1 [] "boom") =
      .error ⟨"Error running command [\x27false\x27]: Replacement index 2 out of range", ""⟩ ∧
    run_command ["enc"] none (.launchFailure "No such file or directory") =
      .error ⟨"Error running command [\x27enc\x27]: No such file or directory", ""⟩ ∧
    run_command ["enc"] none (.exited 0 [9] "warn") = .ok ([9], "warn") := by
  decide

/-- C5: for every separated page whose three preliminary conversions
succeed, the byte stream fed on standard input to the csepdjvu invocation
(the last command of the job's trace, whatever csepdjvu itself then does)
is exactly the run-length mask bytes followed by the background raster
bytes, concatenated with the mask first. -/
theorem C5_separated_stdin_mask_then_raster
    (cfg : Config) (env : PageEnv) (filename : String)
    (pam pbm rle : ByteSeq) (e1 e2 e3 : String)
    (hext : pyEndswith filename ".tif" = true)
    (hpair : (env.bg_exists && env.fg_exists) = true)
    (h1 : env.tifftopnm_bg = .exited 0 pam e1)
    (h2 : env.tifftopnm_fg = .exited 0 pbm e2)
    (h3 : env.pbmtodjvurle = .exited 0 rle e3) :
    (process_image cfg env filename).trace.getLast? =
      some (["csepdjvu", "-d", toString cfg.resolution, "-q", cfg.cr_c44, "-",
             output_path cfg.temp_dir filename], some (rle ++ pam)) := by
  simp only [process_image, hext, hpair, h1, h2, h3, run_command_exited0, if_true]
  split <;> rfl

/-- C5 witness at a concrete separated page. -/
theorem C5_witness :
    (process_image cfgW envSepW "a.tif").trace.getLast? =
      some (["csepdjvu", "-d", toString cfgW.resolution, "-q", cfgW.cr_c44, "-",
             output_path cfgW.temp_dir "a.tif"], some ([7] ++ [5])) :=
  C5_separated_stdin_mask_then_raster cfgW envSepW "a.tif" [5] [6] [7] "" "" ""
    (by decide) (by decide) rfl rfl rfl

/-- C7: for every photo page (no layer pair, single image of mode RGB or L),
the job-scoped temporary file is created and deleted on every exit path of
the encoding step — the environment is unconstrained, so this covers a
failing raster converter (tifftopnm), a failing continuous-tone encoder
(c44), and the success path alike: the with-statement around lines 163-170
guarantees the release. -/
theorem C7_photo_temp_file_deleted_on_all_paths
    (cfg : Config) (env : PageEnv) (filename mode : String)
    (hext : pyEndswith filename ".tif" = true)
    (hpair : (env.bg_exists && env.fg_exists) = false)
    (himg : env.img = .ok mode)
    (hmode : mode = "RGB" ∨ mode = "L") :
    (process_image cfg env filename).tempCreated = true ∧
    (process_image cfg env filename).tempDeleted = true := by
  rcases hmode with h | h <;> subst h <;>
    simp [process_image, hext, hpair, himg] <;>
    split <;> (try split) <;> simp

/-- C7 witness: a concrete photo page whose c44 encoder fails still has its
temporary file created and deleted. -/
theorem C7_witness :
    (process_image cfgW
      ⟨false, false, .ok "L", "t0", .exited 0 [] "", .exited 0 [] "", .exited 0 [] "",
       .exited 0 [] "", .exited 0 [] "", .exited 0 [] "", .exited 2 [] "bad"⟩
      "a.tif").tempCreated = true ∧
    (process_image cfgW
      ⟨false, false, .ok "L", "t0", .exited 0 [] "", .exited 0 [] "", .exited 0 [] "",
       .exited 0 [] "", .exited 0 [] "", .exited 0 [] "", .exited 2 [] "bad"⟩
      "a.tif").tempDeleted = true :=
  C7_photo_temp_file_deleted_on_all_paths cfgW
    ⟨false, false, .ok "L", "t0", .exited 0 [] "", .exited 0 [] "", .exited 0 [] "",
     .exited 0 [] "", .exited 0 [] "", .exited 0 [] "", .exited 2 [] "bad"⟩
    "a.tif" "L" (by decide) (by decide) rfl (Or.inr rfl)

/-- C2: classification.  For a candidate ending in the supported extension,
in an environment where every spawned command succeeds: when both layer
files exist the job runs exactly the separated pipeline (tifftopnm on
background, tifftopnm on foreground, pbmtodjvurle, csepdjvu) — regardless
of what the same-named top-level image would decode to, which is never
opened; when the pair is absent and the image decodes to mode "1" it runs
exactly the bitonal encoder cjb2; when the pair is absent and the image
decodes to "RGB" or "L" it runs exactly the photo pipeline (tifftopnm,
c44). -/
theorem C2_classification_routes_encoders
    (cfg : Config) (env : PageEnv) (filename : String)
    (hext : pyEndswith filename ".tif" = true)
    (hok : env.allSucceed = true) :
    ((env.bg_exists && env.fg_exists) = true →
      (process_image cfg env filename).trace.map Prod.fst =
        [["tifftopnm", osJoin (background_dir cfg) (splitextRoot filename ++ ".tif")],
         ["tifftopnm", osJoin (foreground_dir cfg) (splitextRoot filename ++ ".tif")],
         ["pbmtodjvurle"],
         ["csepdjvu", "-d", toString cfg.resolution, "-q", cfg.cr_c44, "-",
          output_path cfg.temp_dir filename]]) ∧
    ((env.bg_exists && env.fg_exists) = false → env.img = .ok "1" →
      (process_image cfg env filename).trace.map Prod.fst =
        [["cjb2", "-dpi", toString cfg.resolution, "-losslevel", toString cfg.cr_cjb2,
          osJoin cfg.inputdir filename, output_path cfg.temp_dir filename]]) ∧
    (∀ mode, (env.bg_exists && env.fg_exists) = false → env.img = .ok mode →
      (mode = "RGB" ∨ mode = "L") →
      (process_image cfg env filename).trace.map Prod.fst =
        [["tifftopnm", osJoin cfg.inputdir filename],
         ["c44", "-dpi", toString cfg.resolution, "-slice", cfg.cr_c44, env.temp_name,
          output_path cfg.temp_dir filename]]) := by
  simp only [PageEnv.allSucceed, Bool.and_eq_true] at hok
  obtain ⟨⟨⟨⟨⟨⟨h1, h2⟩, h3⟩, h4⟩, h5⟩, h6⟩, h7⟩ := hok
  obtain ⟨o1, s1, hb1⟩ := outcome_succeeded_eq h1
  obtain ⟨o2, s2, hb2⟩ := outcome_succeeded_eq h2
  obtain ⟨o3, s3, hb3⟩ := outcome_succeeded_eq h3
  obtain ⟨o4, s4, hb4⟩ := outcome_succeeded_eq h4
  obtain ⟨o5, s5, hb5⟩ := outcome_succeeded_eq h5
  obtain ⟨o6, s6, hb6⟩ := outcome_succeeded_eq h6
  obtain ⟨o7, s7, hb7⟩ := outcome_succeeded_eq h7
  refine ⟨?_, ?_, ?_⟩
  · intro hpair
    simp [process_image, hext, hpair, hb1, hb2, hb3, hb4, run_command_exited0, output_path]
  · intro hpair himg
    simp [process_image, hext, hpair, himg, hb5, run_command_exited0, output_path]
  · intro mode hpair himg hmode
    rcases hmode with h | h <;> subst h <;>
      simp [process_image, hext, hpair, himg, hb6, hb7, run_command_exited0, output_path]

/-- C2 witness: the three routes at concrete pages (separated, bitonal,
photo fixtures). -/
theorem C2_witness :
    ((envSepW.bg_exists && envSepW.fg_exists) = true →
      (process_image cfgW envSepW "a.tif").trace.map Prod.fst =
        [["tifftopnm", osJoin (background_dir cfgW) (splitextRoot "a.tif" ++ ".tif")],
         ["tifftopnm", osJoin (foreground_dir cfgW) (splitextRoot "a.tif" ++ ".tif")],
         ["pbmtodjvurle"],
         ["csepdjvu", "-d", toString cfgW.resolution, "-q", cfgW.cr_c44, "-",
          output_path cfgW.temp_dir "a.tif"]]) ∧
    ((envSepW.bg_exists && envSepW.fg_exists) = false → envSepW.img = .ok "1" →
      (process_image cfgW envSepW "a.tif").trace.map Prod.fst =
        [["cjb2", "-dpi", toString cfgW.resolution, "-losslevel", toString cfgW.cr_cjb2,
          osJoin cfgW.inputdir "a.tif", output_path cfgW.temp_dir "a.tif"]]) ∧
    (∀ mode, (envSepW.bg_exists && envSepW.fg_exists) = false → envSepW.img = .ok mode →
      (mode = "RGB" ∨ mode = "L") →
      (process_image cfgW envSepW "a.tif").trace.map Prod.fst =
        [["tifftopnm", osJoin cfgW.inputdir "a.tif"],
         ["c44", "-dpi", toString cfgW.resolution, "-slice", cfgW.cr_c44, envSepW.temp_name,
          output_path cfgW.temp_dir "a.tif"]]) :=
  C2_classification_routes_encoders cfgW envSepW "a.tif" (by decide) (by decide)

/-- C4: a candidate whose name does not end in ".tif", or whose single image
(with no layer pair) decodes to a mode outside 1-bit, grayscale and RGB, is
silently skipped: process_image returns None having spawned no external
command (so no encoder runs), and inserting its future anywhere in the
collection sequence changes nothing — the candidate contributes no page and
no error, and the run proceeds as if it were absent. -/
theorem C4_unsupported_candidate_silently_skipped
    (cfg : Config) (env : PageEnv) (filename : String)
    (h : pyEndswith filename ".tif" = false ∨
         ((env.bg_exists && env.fg_exists) = false ∧
          ∃ mode, env.img = .ok mode ∧ mode ≠ "1" ∧ mode ≠ "RGB" ∧ mode ≠ "L")) :
    process_image cfg env filename = ⟨.ok none, [], false, false⟩ ∧
    ∀ pre post, collectLoop (pre ++ (process_image cfg env filename).result :: post) =
      collectLoop (pre ++ post) := by
  have hskip : process_image cfg env filename = ⟨.ok none, [], false, false⟩ := by
    rcases h with hne | ⟨hpair, mode, himg, hm1, hm2, hm3⟩
    · simp [process_image, hne]
    · simp [process_image, hpair, himg, hm1, hm2, hm3]
  refine ⟨hskip, fun pre post => ?_⟩
  rw [hskip]
  exact collectLoop_append_ok_none pre post

/-- C4 witness: a candidate of mode "P" (palette) with no layer pair is
skipped and drops out of any collection sequence. -/
theorem C4_witness :
    process_image cfgW
      ⟨false, false, .ok "P", "t0", .exited 0 [] "", .exited 0 [] "", .exited 0 [] "",
       .exited 0 [] "", .exited 0 [] "", .exited 0 [] "", .exited 0 [] ""⟩
      "a.tif" = ⟨.ok none, [], false, false⟩ ∧
    ∀ pre post, collectLoop (pre ++ (process_image cfgW
      ⟨false, false, .ok "P", "t0", .exited 0 [] "", .exited 0 [] "", .exited 0 [] "",
       .exited 0 [] "", .exited 0 [] "", .exited 0 [] "", .exited 0 [] ""⟩
      "a.tif").result :: post) = collectLoop (pre ++ post) :=
  C4_unsupported_candidate_silently_skipped cfgW
    ⟨false, false, .ok "P", "t0", .exited 0 [] "", .exited 0 [] "", .exited 0 [] "",
     .exited 0 [] "", .exited 0 [] "", .exited 0 [] "", .exited 0 [] ""⟩
    "a.tif" (Or.inr ⟨by decide, "P", rfl, by decide, by decide, by decide⟩)

/-- C10: a candidate ending in ".tif" with no layer pair whose top-level
file cannot be decoded at all makes the job raise the image decoder's own
exception: the result is the unwrapped image error (not a CommandError and
not a silent skip), no external command has been spawned, and when that
future is awaited after error-free ones, the collection loop stops with
exactly this error, the later futures never being consumed. -/
theorem C10_undecodable_image_raises_decoder_error
    (cfg : Config) (env : PageEnv) (filename msg : String)
    (hext : pyEndswith filename ".tif" = true)
    (hpair : (env.bg_exists && env.fg_exists) = false)
    (himg : env.img = .error msg) :
    (process_image cfg env filename).result = .error (.image msg) ∧
    (process_image cfg env filename).trace = [] ∧
    ∀ pre post, (∀ e, Except.error e ∉ pre) →
      collectLoop (pre ++ (process_image cfg env filename).result :: post) =
        (pre.filterMap pageOf, some (.image msg)) := by
  have hres : process_image cfg env filename = ⟨.error (.image msg), [], false, false⟩ := by
    simp [process_image, hext, hpair, himg]
  refine ⟨by rw [hres], by rw [hres], fun pre post hpre => ?_⟩
  rw [hres]
  exact collectLoop_append_error (.image msg) pre post hpre

/-- C10 witness: a corrupt image aborts collection after one good page. -/
theorem C10_witness :
    (process_image cfgW
      ⟨false, false, .error "cannot identify image file", "t0", .exited 0 [] "",
       .exited 0 [] "", .exited 0 [] "", .exited 0 [] "", .exited 0 [] "",
       .exited 0 [] "", .exited 0 [] ""⟩ "b.tif").result =
      .error (.image "cannot identify image file") ∧
    collectLoop ([.ok (some ("a.tif", "tmp/a.djvu"))] ++ (process_image cfgW
      ⟨false, false, .error "cannot identify image file", "t0", .exited 0 [] "",
       .exited 0 [] "", .exited 0 [] "", .exited 0 [] "", .exited 0 [] "",
       .exited 0 [] "", .exited 0 [] ""⟩ "b.tif").result :: [.ok (some ("c.tif", "tmp/c.djvu"))]) =
      ([("a.tif", "tmp/a.djvu")], some (.image "cannot identify image file")) :=
  ⟨(C10_undecodable_image_raises_decoder_error cfgW
      ⟨false, false, .error "cannot identify image file", "t0", .exited 0 [] "",
       .exited 0 [] "", .exited 0 [] "", .exited 0 [] "", .exited 0 [] "",
       .exited 0 [] "", .exited 0 [] ""⟩ "b.tif" "cannot identify image file"
      (by decide) (by decide) rfl).1,
   by
    have h := (C10_undecodable_image_raises_decoder_error cfgW
      ⟨false, false, .error "cannot identify image file", "t0", .exited 0 [] "",
       .exited 0 [] "", .exited 0 [] "", .exited 0 [] "", .exited 0 [] "",
       .exited 0 [] "", .exited 0 [] ""⟩ "b.tif" "cannot identify image file"
      (by decide) (by decide) rfl).2.2 [.ok (some ("a.tif", "tmp/a.djvu"))]
      [.ok (some ("c.tif", "tmp/c.djvu"))] (by intro e he; simp at he)
    simpa using h⟩

/-- C9 counterexample: the candidates ".tif" and ".tif.tif" are distinct,
both end in the supported extension, yet os.path.splitext gives both the
stem ".tif" (leading dots belong to the stem), so their derived output
paths coincide — the claimed injectivity over names ending in ".tif"
fails.  The last conjunct ties the colliding path to process_image: both
candidates, processed successfully, write the same artifact file. -/
theorem C9_counterexample :
    pyEndswith ".tif" ".tif" = true ∧ pyEndswith ".tif.tif" ".tif" = true ∧
    (".tif" : String) ≠ ".tif.tif" ∧
    output_path "tmp" ".tif" = output_path "tmp" ".tif.tif" ∧
    (process_image cfgW envBitW ".tif").result = .ok (some (".tif", "tmp/.tif.djvu")) ∧
    (process_image cfgW envBitW ".tif.tif").result = .ok (some (".tif.tif", "tmp/.tif.djvu")) := by
  decide

/-- C9 amended: the mapping from candidate filename to derived output path
is injective over names that splitext actually divides into a stem plus the
".tif" extension (equivalently, names with a non-dot character before the
final ".tif"; the claim as stated fails for dot-file names such as ".tif"
versus ".tif.tif", whose stems coincide).  Successful jobs write exactly
these derived paths, so two such distinct candidates never write the same
artifact file. -/
theorem C9_output_paths_injective_on_split_names
    (temp_dir n1 n2 : String)
    (h1 : splitextRoot n1 ++ ".tif" = n1)
    (h2 : splitextRoot n2 ++ ".tif" = n2)
    (hne : n1 ≠ n2) :
    output_path temp_dir n1 ≠ output_path temp_dir n2 := by
  intro heq
  apply hne
  have hdata : (temp_dir ++ "/" ++ (splitextRoot n1 ++ ".djvu")).data =
      (temp_dir ++ "/" ++ (splitextRoot n2 ++ ".djvu")).data :=
    congrArg String.data heq
  simp only [String.data_append] at hdata
  have hroots : (splitextRoot n1).data = (splitextRoot n2).data :=
    List.append_cancel_right (List.append_cancel_left hdata)
  have hroot : splitextRoot n1 = splitextRoot n2 := by
    cases hr1 : splitextRoot n1
    cases hr2 : splitextRoot n2
    rw [hr1, hr2] at hroots
    exact congrArg String.mk hroots
  rw [← h1, ← h2, hroot]

/-- C9 amended witness: two ordinary candidates get distinct output paths. -/
theorem C9_witness :
    output_path "tmp" "a.tif" ≠ output_path "tmp" "b.tif" :=
  C9_output_paths_injective_on_split_names "tmp" "a.tif" "b.tif"
    (by decide) (by decide) (by decide)

/-- mainRun when an awaited future raises: the run aborts with that error,
keeping the pages collected before it, invoking nothing further. -/
theorem mainRun_collect_error {cfg : Config} {envs : Nat → PageEnv} {names : List String}
    {order : List Nat} {outputExists : Bool} {djvmOutcome : CmdOutcome} {e : PyError}
    (h : (collectLoop (completionResults cfg envs (pySorted names) order)).2 = some e) :
    mainRun cfg envs names order outputExists djvmOutcome =
      ⟨some e, (collectLoop (completionResults cfg envs (pySorted names) order)).1,
       [], false, none, false, false⟩ := by
  unfold mainRun
  simp only []
  rw [h]

/-- mainRun when collection finishes without an exception: the collected
pages are sorted by listing index and either assembled with djvm or, when
empty, reported as no pages. -/
theorem mainRun_no_collect_error {cfg : Config} {envs : Nat → PageEnv} {names : List String}
    {order : List Nat} {outputExists : Bool} {djvmOutcome : CmdOutcome}
    (h : (collectLoop (completionResults cfg envs (pySorted names) order)).2 = none) :
    mainRun cfg envs names order outputExists djvmOutcome =
      (if ((List.insertionSort
            (fun a b => List.indexOf a.1 (pySorted names) ≤ List.indexOf b.1 (pySorted names))
            (collectLoop (completionResults cfg envs (pySorted names) order)).1).map
            Prod.snd) ≠ [] then
        ⟨none, (collectLoop (completionResults cfg envs (pySorted names) order)).1,
         (List.insertionSort
            (fun a b => List.indexOf a.1 (pySorted names) ≤ List.indexOf b.1 (pySorted names))
            (collectLoop (completionResults cfg envs (pySorted names) order)).1).map Prod.snd,
         true,
         some (run_command (["djvm", "-c", cfg.outputfile] ++
            (List.insertionSort
              (fun a b => List.indexOf a.1 (pySorted names) ≤ List.indexOf b.1 (pySorted names))
              (collectLoop (completionResults cfg envs (pySorted names) order)).1).map Prod.snd)
            none djvmOutcome),
         outputExists, false⟩
      else
        ⟨none, (collectLoop (completionResults cfg envs (pySorted names) order)).1,
         [], false, none, false, true⟩) := by
  unfold mainRun
  simp only []
  rw [h]

/-- C8: if the sequence of awaited futures is some error-free prefix, then a
future that raises, then anything at all, the run aborts at that first
failure: the final state keeps exactly the pages of the prefix, carries the
raised error, and reaches no assembly — djvm is never invoked, no artifact
list is formed, nothing is removed. -/
theorem C8_first_failure_aborts_collection
    (cfg : Config) (envs : Nat → PageEnv) (names : List String) (order : List Nat)
    (outputExists : Bool) (djvmOutcome : CmdOutcome) (pre post : List FutureVal) (e : PyError)
    (hsplit : completionResults cfg envs (pySorted names) order = pre ++ .error e :: post)
    (hpre : ∀ e2, Except.error e2 ∉ pre) :
    mainRun cfg envs names order outputExists djvmOutcome =
      ⟨some e, pre.filterMap pageOf, [], false, none, false, false⟩ := by
  have hc := collectLoop_append_error e pre post hpre
  rw [mainRun_collect_error (by rw [hsplit, hc]), hsplit, hc]

/-- C8 witness: with two candidates, the first future succeeding and the
second raising a CommandError from its failing cjb2 encoder, the run ends
with only the first page collected, the error recorded, and no assembly. -/
theorem C8_witness :
    mainRun cfgW (fun i => if i = 0 then envBitW else envBitFailW) ["a.tif", "b.tif"] [0, 1]
        false (.exited 0 [] "") =
      ⟨some (.cmd ⟨"Error running command [\x27cjb2\x27, \x27-dpi\x27, \x27300\x27, " ++
          "\x27-losslevel\x27, \x271\x27, \x27in/b.tif\x27, \x27tmp/b.djvu\x27]: " ++
          "Replacement index 2 out of range", ""⟩),
       List.filterMap pageOf [.ok (some ("a.tif", "tmp/a.djvu"))],
       [], false, none, false, false⟩ :=
  C8_first_failure_aborts_collection cfgW (fun i => if i = 0 then envBitW else envBitFailW)
    ["a.tif", "b.tif"] [0, 1] false (.exited 0 [] "")
    [.ok (some ("a.tif", "tmp/a.djvu"))] []
    (.cmd ⟨"Error running command [\x27cjb2\x27, \x27-dpi\x27, \x27300\x27, " ++
        "\x27-losslevel\x27, \x271\x27, \x27in/b.tif\x27, \x27tmp/b.djvu\x27]: " ++
        "Replacement index 2 out of range", ""⟩)
    (by decide) (by intro e2 he; simp at he)

/-- C6: when collection completes without an exception and zero pages were
collected, djvm is never invoked, a pre-existing output file is not
removed, and the run ends with the no-pages report; conversely the old
output file is removed only in a run that invokes djvm on a non-empty path
list — removal happens only when at least one page is about to be
written. -/
theorem C6_zero_pages_no_combiner_untouched_output
    (cfg : Config) (envs : Nat → PageEnv) (names : List String) (order : List Nat)
    (outputExists : Bool) (djvmOutcome : CmdOutcome) :
    ((mainRun cfg envs names order outputExists djvmOutcome).collectError = none →
      (mainRun cfg envs names order outputExists djvmOutcome).collectedPages = [] →
      (mainRun cfg envs names order outputExists djvmOutcome).djvmInvoked = false ∧
      (mainRun cfg envs names order outputExists djvmOutcome).removedOldOutput = false ∧
      (mainRun cfg envs names order outputExists djvmOutcome).noPagesReported = true) ∧
    ((mainRun cfg envs names order outputExists djvmOutcome).removedOldOutput = true →
      (mainRun cfg envs names order outputExists djvmOutcome).djvmInvoked = true ∧
      (mainRun cfg envs names order outputExists djvmOutcome).assembledPaths ≠ [] ∧
      outputExists = true) := by
  cases hc : (collectLoop (completionResults cfg envs (pySorted names) order)).2 with
  | some e =>
    rw [mainRun_collect_error hc]
    exact ⟨fun h1 => absurd h1 (by simp), fun h2 => absurd h2 (by simp)⟩
  | none =>
    rw [mainRun_no_collect_error hc]
    split
    next hne =>
      refine ⟨fun _ h2 => ?_, fun h => ⟨rfl, hne, h⟩⟩
      exfalso
      simp only at h2
      rw [h2] at hne
      simp [List.insertionSort] at hne
    next hne =>
      exact ⟨fun _ _ => ⟨rfl, rfl, rfl⟩, fun h => absurd h (by simp)⟩

/-- C6 witness: an empty listing reports no pages without touching the
output, and a one-page run with a pre-existing output removes it only
while invoking djvm on a non-empty list. -/
theorem C6_witness :
    ((mainRun cfgW (fun _ => envBitW) [] [] false (.exited 0 [] "")).djvmInvoked = false ∧
     (mainRun cfgW (fun _ => envBitW) [] [] false (.exited 0 [] "")).removedOldOutput = false ∧
     (mainRun cfgW (fun _ => envBitW) [] [] false (.exited 0 [] "")).noPagesReported = true) ∧
    ((mainRun cfgW (fun _ => envBitW) ["a.tif"] [0] true (.exited 0 [] "")).djvmInvoked = true ∧
     (mainRun cfgW (fun _ => envBitW) ["a.tif"] [0] true (.exited 0 [] "")).assembledPaths ≠ [] ∧
     true = true) :=
  ⟨(C6_zero_pages_no_combiner_untouched_output cfgW (fun _ => envBitW) [] [] false
      (.exited 0 [] "")).1 (by decide) (by decide),
   (C6_zero_pages_no_combiner_untouched_output cfgW (fun _ => envBitW) ["a.tif"] [0] true
      (.exited 0 [] "")).2 (by decide)⟩

/-- C1: for every input listing without duplicate names, every completion
order of the futures (any permutation of the submission indices — i.e. any
worker count and any completion timing), if collection finishes without an
exception then the artifact paths handed to the djvm combiner are exactly
the successful pages taken in the order of the sorted directory listing:
the assembled page sequence equals the lexicographic order of the
candidates' filenames, independently of completion order. -/
theorem C1_assembled_in_listing_order
    (cfg : Config) (envs : Nat → PageEnv) (names : List String) (order : List Nat)
    (outputExists : Bool) (djvmOutcome : CmdOutcome)
    (hnodup : names.Nodup)
    (hperm : order.Perm (List.range (pySorted names).length))
    (hnoerr : (mainRun cfg envs names order outputExists djvmOutcome).collectError = none) :
    (mainRun cfg envs names order outputExists djvmOutcome).assembledPaths =
      (inOrderPages cfg envs (pySorted names)).map Prod.snd := by
  have hcl : (collectLoop (completionResults cfg envs (pySorted names) order)).2 = none := by
    cases hc : (collectLoop (completionResults cfg envs (pySorted names) order)).2 with
    | some e =>
      rw [mainRun_collect_error hc] at hnoerr
      exact absurd hnoerr (by simp)
    | none => rfl
  rw [mainRun_no_collect_error hcl]
  set s := pySorted names with hs
  have hsnodup : s.Nodup := (List.perm_insertionSort _ names).nodup_iff.2 hnodup
  have hfutslen : (futureValues cfg envs s).length = s.length := by
    simp [futureValues]
  have hbase : (List.range s.length).map
      (fun i => (futureValues cfg envs s).getD i (.ok none)) = futureValues cfg envs s := by
    rw [← hfutslen]
    exact map_getD_range _ _
  have hresperm : (completionResults cfg envs s order).Perm (futureValues cfg envs s) := by
    have hmap := hperm.map (fun i => (futureValues cfg envs s).getD i (.ok none))
    rw [hbase] at hmap
    exact hmap
  have hpages : (collectLoop (completionResults cfg envs s order)).1 =
      (completionResults cfg envs s order).filterMap pageOf := collectLoop_no_error_fst hcl
  have hpagesperm : ((completionResults cfg envs s order).filterMap pageOf).Perm
      (inOrderPages cfg envs s) := hresperm.filterMap pageOf
  have hfst : ∀ i : Nat, ∀ x : String × String,
      pageOf ((process_image cfg (envs i) (s.getD i "")).result) = some x →
      x.1 = s.getD i "" := by
    intro i x hx
    cases hres : (process_image cfg (envs i) (s.getD i "")).result with
    | error e =>
      rw [hres] at hx
      exact absurd hx (by simp [pageOf])
    | ok v =>
      cases v with
      | none =>
        rw [hres] at hx
        exact absurd hx (by simp [pageOf])
      | some fp =>
        obtain ⟨f, p⟩ := fp
        have hf := process_image_result_fst hres
        rw [hres] at hx
        by_cases hp : p = ""
        · rw [show pageOf (Except.ok (some (f, p))) = none from by simp [pageOf, hp]] at hx
          exact absurd hx (by simp)
        · rw [show pageOf (Except.ok (some (f, p))) = some (f, p) from by simp [pageOf, hp]] at hx
          injection hx with h2
          rw [← h2]
          exact hf
  have hinorder : inOrderPages cfg envs s =
      (List.range s.length).filterMap
        (fun i => pageOf ((process_image cfg (envs i) (s.getD i "")).result)) := by
    simp [inOrderPages, futureValues, List.filterMap_map, Function.comp_def]
  have hsorted_lt : List.Pairwise (fun a b => List.indexOf a.1 s < List.indexOf b.1 s)
      (inOrderPages cfg envs s) := by
    rw [hinorder, List.pairwise_filterMap]
    refine (List.pairwise_lt_range s.length).imp_of_mem ?_
    intro i j hi hj hij x hx y hy
    rw [hfst i x (Option.mem_def.1 hx), hfst j y (Option.mem_def.1 hy),
      List.getD_eq_getElem _ _ (List.mem_range.1 hi),
      List.getD_eq_getElem _ _ (List.mem_range.1 hj),
      List.indexOf_getElem hsnodup i (List.mem_range.1 hi),
      List.indexOf_getElem hsnodup j (List.mem_range.1 hj)]
    exact hij
  haveI hTot : IsTotal (String × String)
      (fun a b => List.indexOf a.1 s ≤ List.indexOf b.1 s) := ⟨fun a b => Nat.le_total _ _⟩
  haveI hTrans : IsTrans (String × String)
      (fun a b => List.indexOf a.1 s ≤ List.indexOf b.1 s) := ⟨fun a b c => Nat.le_trans⟩
  have hkey : List.insertionSort (fun a b => List.indexOf a.1 s ≤ List.indexOf b.1 s)
      (collectLoop (completionResults cfg envs s order)).1 = inOrderPages cfg envs s := by
    have hperm2 : (List.insertionSort (fun a b => List.indexOf a.1 s ≤ List.indexOf b.1 s)
        (collectLoop (completionResults cfg envs s order)).1).Perm (inOrderPages cfg envs s) := by
      refine (List.perm_insertionSort _ _).trans ?_
      rw [hpages]
      exact hpagesperm
    have hsle : List.Sorted (fun a b => List.indexOf a.1 s ≤ List.indexOf b.1 s)
        (List.insertionSort (fun a b => List.indexOf a.1 s ≤ List.indexOf b.1 s)
          (collectLoop (completionResults cfg envs s order)).1) :=
      List.sorted_insertionSort _ _
    have hinne : List.Pairwise (fun a b => List.indexOf a.1 s ≠ List.indexOf b.1 s)
        (inOrderPages cfg envs s) := hsorted_lt.imp (fun h => Nat.ne_of_lt h)
    have hne : List.Pairwise (fun a b => List.indexOf a.1 s ≠ List.indexOf b.1 s)
        (List.insertionSort (fun a b => List.indexOf a.1 s ≤ List.indexOf b.1 s)
          (collectLoop (completionResults cfg envs s order)).1) :=
      (hperm2.pairwise_iff (fun h => h.symm)).2 hinne
    have hslt : List.Sorted (fun a b => List.indexOf a.1 s < List.indexOf b.1 s)
        (List.insertionSort (fun a b => List.indexOf a.1 s ≤ List.indexOf b.1 s)
          (collectLoop (completionResults cfg envs s order)).1) :=
      (hsle.and hne).imp (fun h => lt_of_le_of_ne h.1 h.2)
    haveI : IsAntisymm (String × String)
        (fun a b => List.indexOf a.1 s < List.indexOf b.1 s) :=
      ⟨fun a b h1 h2 => absurd h2 (Nat.lt_asymm h1)⟩
    exact List.eq_of_perm_of_sorted hperm2 hslt hsorted_lt
  rw [hkey]
  by_cases hp : (inOrderPages cfg envs s).map Prod.snd = []
  · rw [if_neg (fun h => h hp)]
    exact hp.symm
  · rw [if_pos hp]

/-- C1 witness: two bitonal pages submitted from the sorted listing of
["b.tif", "a.tif"] but completing in reversed order are still assembled in
lexicographic filename order. -/
theorem C1_witness :
    (mainRun cfgW (fun _ => envBitW) ["b.tif", "a.tif"] [1, 0] false
      (.exited 0 [] "")).assembledPaths =
      (inOrderPages cfgW (fun _ => envBitW) (pySorted ["b.tif", "a.tif"])).map Prod.snd :=
  C1_assembled_in_listing_order cfgW (fun _ => envBitW) ["b.tif", "a.tif"] [1, 0] false
    (.exited 0 [] "") (by decide) (by decide) (by decide)
